import Mathlib

/-!
Verification of the fondat-core request-dispatch pipeline.

This file gives a shallow embedding of the dispatch-critical code of the
repository — `fondat/resource.py` (`authorize`) and `fondat/http.py`
(`Chain.handle`, `_subordinate`, `Application.handle`, `Application._handle`,
parameter binding and response finalization) — and proves or refutes the
frozen claims about it.

Modelling conventions:
 - Python exceptions are the inductive `Fondat.PyExc`; raising is the
   `Except PyExc` monad's error.
 - Machine-level Python behaviour that the code observes through duck typing
   (attribute lookup on a resource, `resource[segment]`, operation lookup,
   codecs, validation) is represented by oracle functions in a `World` /
   `ParamEnv` record; each constructor of the observation types corresponds
   to one observable outcome the Python code branches on.
 - An undefined Python name evaluated at runtime raises `NameError`; the
   embedding renders such a lookup as `PyExc.nameError`.
-/

namespace Fondat

/--
Python exceptions raised by the embedded code.

Taxonomy errors (`fondat.error.Error` subclasses, module not under `src/`,
modelled from the spec §7: BadRequest, NotFound, MethodNotAllowed,
Unauthorized, Forbidden, InternalServerError) are the first six
constructors; `internalServerErrorFrom cause` is `raise InternalServerError
from cause` (`__cause__` set), `internalServerError` the bare class raise
(`__cause__ = None`).  The remaining constructors are ordinary Python
exceptions; `other args` is an arbitrary non-taxonomy exception carrying its
`args` tuple.  `unauthorized`/`forbidden` carry a tag to distinguish
distinct failures.
-/
inductive PyExc where
  | badRequest (msg : String)
  | notFound
  | methodNotAllowed
  | unauthorized (tag : Nat)
  | forbidden (tag : Nat)
  | internalServerError
  | internalServerErrorFrom (cause : PyExc)
  | nameError (missing : String)
  | typeError (msg : String)
  | valueError (msg : String)
  | keyError (msg : String)
  | indexError (msg : String)
  | attributeError (msg : String)
  | other (args : List String)
deriving DecidableEq, Repr

/-- `isinstance(e, fondat.error.Error)`: membership in the error taxonomy. -/
def PyExc.isFondatError : PyExc → Bool
  | .badRequest _ | .notFound | .methodNotAllowed | .unauthorized _
  | .forbidden _ | .internalServerError | .internalServerErrorFrom _ => true
  | _ => false

/-- The `args` tuple of an exception object. -/
def PyExc.args : PyExc → List String
  | .badRequest m => [m]
  | .notFound => []
  | .methodNotAllowed => []
  | .unauthorized _ => []
  | .forbidden _ => []
  | .internalServerError => []
  | .internalServerErrorFrom _ => []
  | .nameError n => ["name " ++ n ++ " is not defined"]
  | .typeError m => [m]
  | .valueError m => [m]
  | .keyError m => [m]
  | .indexError m => [m]
  | .attributeError m => [m]
  | .other a => a

/-- Outcome of `await requirement.authorize()` for one security requirement. -/
inductive ReqOutcome where
  | success
  | raises (e : PyExc)
deriving DecidableEq, Repr

/--
Loop body of `fondat.resource.authorize` (resource.py lines 67-81), with the
saved `exception` variable made explicit.

Faithful rendering of the `except ForbiddenError as fe:` handler: its body
evaluates `isinstance(exception, ForbiddenException)`, and the name
`ForbiddenException` is not defined anywhere in `fondat/resource.py` (the
module imports only `ForbiddenError` and `UnauthorizedError` from
`fondat.error`), so the handler itself raises `NameError`, which propagates
(an exception raised inside an `except` body is not caught by the sibling
clauses of the same `try`).
-/
def authorizeAux : List ReqOutcome → Option PyExc → Except PyExc Unit
  | [], none => .ok ()
  | [], some e => .error e
  | .success :: _, _ => .ok ()
  | .raises (.forbidden _) :: _, _ =>
      .error (.nameError "ForbiddenException")
  | .raises (.unauthorized t) :: rest, exc =>
      authorizeAux rest (some (exc.getD (.unauthorized t)))
  | .raises e :: _, _ => .error e

/-- `fondat.resource.authorize(security)`; `security or ()` maps `None` to the
empty iterable. -/
def authorize (security : Option (List ReqOutcome)) : Except PyExc Unit :=
  authorizeAux (security.getD []) none

/-!
### Filter chain (`fondat.http.Chain`, http.py lines 108-163)

A filter instantiated against a request is observed by `Chain.handle` through
at most two interactions: its first `__anext__` (async generators) or its
awaited value (coroutines), and — for async generators that yielded no
response — one `asend(response)`.  `FilterInst` records exactly these
observables; responses are an abstract type `ρ`, with `Option ρ` rendering
Python truthiness (`None` yields are falsy, response objects truthy).
-/

/-- First pre-phase outcome of an async-generator filter. -/
inductive AgenPre (ρ : Type) where
  /-- First `__anext__` raises `StopAsyncIteration`. -/
  | stop
  /-- First `__anext__` yields `r` (`none` = yielded no value); `resume`
  is the filter's `asend` behaviour: `none` means it yields no value or
  raises `StopAsyncIteration`, `some r2` a replacement response. -/
  | yld (r : Option ρ) (resume : ρ → Option ρ)

/-- A filter instantiated against a request. -/
inductive FilterInst (ρ : Type) where
  /-- `asyncio.iscoroutine(filter)`: awaits to a response or `None`. -/
  | coro (res : Option ρ)
  /-- `inspect.isasyncgen(filter)`. -/
  | agen (pre : AgenPre ρ)

/--
Forward walk of `Chain.handle` (http.py lines 139-153): returns the
short-circuit response, if any, and the rewind list accumulated so far.
Async-generator filters that yield no value are appended to the rewind list;
a filter yielding a response breaks out of the walk, leaving the rewind list
as accumulated up to (and excluding) that filter.
-/
def chainPre {ρ : Type} : List (FilterInst ρ) → List (ρ → Option ρ) →
    Option ρ × List (ρ → Option ρ)
  | [], rw => (none, rw)
  | .coro none :: rest, rw => chainPre rest rw
  | .coro (some r) :: _, rw => (some r, rw)
  | .agen .stop :: rest, rw => chainPre rest rw
  | .agen (.yld none f) :: rest, rw => chainPre rest (rw ++ [f])
  | .agen (.yld (some r) _) :: _, rw => (some r, rw)

/-- One resumption step (http.py lines 157-162): `asend(response)`, keeping
the current response when the filter yields no replacement. -/
def step {ρ : Type} (resp : ρ) (f : ρ → Option ρ) : ρ :=
  (f resp).getD resp

/--
`Chain.handle` (http.py lines 137-163).  Filters are instantiated against the
request in order; if no filter short-circuited the handler produces the
response; the rewind list is then drained in reverse order of entry.
-/
def Chain.handle {σ ρ : Type} (filters : List (σ → FilterInst ρ))
    (handler : σ → ρ) (request : σ) : ρ :=
  match chainPre (filters.map (fun f => f request)) [] with
  | (some r, rewind) => rewind.reverse.foldl step r
  | (none, rewind) => rewind.reverse.foldl step (handler request)

/-!
### String helpers

Python string primitives used by `Application._handle`, rendered with
structural recursion over `List Char` so concrete instances evaluate inside
the kernel.  Python `str` indexes characters, so `List Char` is the faithful
carrier for `startswith`, slicing and `split`.
-/

/-- Python `s.split("/")` on the character list of `s` (single-character
separator): `"".split("/") = [""]`, `"a//b".split("/") = ["a","","b"]`. -/
def splitSlashAux : List Char → List Char → List String
  | [], acc => [String.mk acc.reverse]
  | c :: rest, acc =>
      if c = '/' then String.mk acc.reverse :: splitSlashAux rest []
      else splitSlashAux rest (c :: acc)

/-- Python `s.split("/")`. -/
def splitSlash (s : String) : List String :=
  splitSlashAux s.data []

/-- Python `s.startswith(p)`. -/
def startsWith (s p : String) : Bool :=
  p.data.isPrefixOf s.data

/-- Python `s[n:]` (character slicing). -/
def strDrop (s : String) (n : Nat) : String :=
  String.mk (s.data.drop n)

/-- Python `str.lower()` on one character (ASCII range, which covers HTTP
method names). -/
def pyLowerChar (c : Char) : Char :=
  if c.toNat ≥ 65 ∧ c.toNat ≤ 90 then Char.ofNat (c.toNat + 32) else c

/-- Python `s.lower()`. -/
def pyLower (s : String) : String :=
  String.mk (s.data.map pyLowerChar)

/-- Whether `pat` occurs as a contiguous substring of `s` (used only to state
claims about error-message contents). -/
def strContains (pat : List Char) : List Char → Bool
  | [] => pat.isPrefixOf []
  | c :: rest => pat.isPrefixOf (c :: rest) || strContains pat rest

/-!
### Parameter binding (`Application._handle`, http.py lines 512-541)
-/

/-- Decoded parameter values, abstract. -/
abbrev Val := Nat

/--
The effective `ParamIn` annotation of a parameter: the first `ParamIn` found
among the `Annotated` metadata, or, when none is present, `InQuery(name)`
(http.py lines 519-528).
-/
inductive ParamSource where
  | query (key : String)
  | header (key : String)
  | cookie (key : String)
  | body
deriving DecidableEq, Repr

/-- Python `str(in_param)`: `_InString.__str__` is
`f"{self.description}: {self.key}"` (http.py lines 378-379) and
`_InBody.__str__` is `"request body"` (http.py lines 423-424). -/
def sourceStr : ParamSource → String
  | .query k => "query parameter: " ++ k
  | .header k => "request header: " ++ k
  | .cookie k => "request cookie: " ++ k
  | .body => "request body"

/-- One entry of the operation's type hints (excluding `return`). -/
structure ParamSpec where
  name : String
  /-- First `ParamIn` annotation among the `Annotated` metadata, if any. -/
  ann : Option ParamSource
  /-- `signature.parameters[name].default is not inspect.Parameter.empty`. -/
  hasDefault : Bool
  /-- `is_optional(hint)`. -/
  optional : Bool
deriving DecidableEq, Repr

/-- The `in_param` used for a parameter (http.py lines 527-528). -/
def sourceOf (p : ParamSpec) : ParamSource :=
  p.ann.getD (.query p.name)

/-- Outcome of `await in_param.get(hint, request)`. -/
inductive FetchOutcome where
  /-- `get` returned `None` (key absent, or empty body). -/
  | absent
  /-- `get` returned a decoded value. -/
  | value (v : Val)
  /-- `get` raised `BadRequestError(msg)` (decode failure). -/
  | badRequest (msg : String)
deriving DecidableEq, Repr

/-- Oracles for the request-dependent and type-dependent steps of the
parameter loop. -/
structure ParamEnv where
  /-- `await in_param.get(hint, request)` for the parameter bound to a
  given source. -/
  fetch : ParamSource → FetchOutcome
  /-- `validate(param, hint)` for parameter `name`: `some m` means it raises
  `TypeError`/`ValueError` with message `m`, `none` that it passes. -/
  validate : String → Val → Option String

/--
The parameter loop of `Application._handle` (http.py lines 516-541).  Bound
parameters are accumulated in hint order; `(name, none)` renders
`params[name] = None`.  If the resolved value is absent and the parameter
has no declared default and is not optional, `BadRequestError` is raised
naming the source; a validation failure on a present value is re-raised as
`BadRequestError` naming the source.
-/
def bindParams (env : ParamEnv) : List ParamSpec →
    Except PyExc (List (String × Option Val))
  | [] => .ok []
  | p :: rest =>
    match env.fetch (sourceOf p) with
    | .badRequest m => .error (.badRequest m)
    | .absent =>
        if !p.hasDefault && !p.optional then
          .error (.badRequest ("expecting value in " ++ sourceStr (sourceOf p)))
        else
          match bindParams env rest with
          | .error e => .error e
          | .ok tail => .ok ((p.name, none) :: tail)
    | .value v =>
        match env.validate p.name v with
        | some m =>
            .error (.badRequest (m ++ " in " ++ sourceStr (sourceOf p)))
        | none =>
            match bindParams env rest with
            | .error e => .error e
            | .ok tail => .ok ((p.name, some v) :: tail)

/--
Python keyword-call semantics for `await operation(**params)`: a parameter
takes the explicitly bound value when its name is a key of `params`, and
falls back to its declared default only when the name is absent.
-/
def effectiveArg (params : List (String × Option Val))
    (defaults : String → Option Val) (name : String) : Option Val :=
  match params.lookup name with
  | some v => v
  | none => defaults name

/-!
### Resource tree and dispatch (`_subordinate`, `Application._handle`)

Resources are identified by natural numbers; a `World` carries the oracles
for the duck-typed observations the dispatcher makes of the tree.
-/

/-- What `Application._handle` observes of `getattr(resource, segment, None)`
and the subsequent tests of `_subordinate` (http.py lines 330-342). -/
inductive AttrLookup where
  /-- `getattr` returned `None` (attribute missing or valued `None`). -/
  | absent
  /-- The attribute satisfies `fondat.resource.is_resource`. -/
  | resource (r : Nat)
  /-- The attribute exists but is not callable. -/
  | notCallable
  /-- The attribute is callable but its `return` type hint is not a
  resource. -/
  | callableNonResourceReturn
  /-- The attribute is callable and its `return` type hint is a resource;
  calling it would produce resource `result`. -/
  | callableResourceReturn (isCoroutine : Bool) (result : Nat)
deriving DecidableEq, Repr

/-- What `_subordinate` observes of `resource[segment]` (http.py lines
344-351). -/
inductive ItemLookup where
  /-- `resource[segment]` raises `e` (e.g. `TypeError` for an unsubscriptable
  resource or key of the wrong type, `KeyError`/`IndexError` for a missing
  key). -/
  | raises (e : PyExc)
  /-- `resource[segment]` returns an object; `isResource` is its
  `fondat.resource.is_resource` status. -/
  | value (isResource : Bool) (r : Nat)
deriving DecidableEq, Repr

/-- What `Application._handle` observes of `getattr(resource, method, None)`
followed by `is_operation` (http.py lines 509-511). -/
inductive OpLookup where
  | absent
  | nonOperation
  | operation (opId : Nat)
deriving DecidableEq, Repr

/-- The body object placed on a response: `content_type` and
`content_length` as exposed by `fondat.types` streams. -/
structure BodyModel where
  contentType : String
  contentLength : Option Nat
deriving DecidableEq, Repr

/-- An HTTP response as built by `Application._handle`. -/
structure ResponseModel where
  status : Nat
  contentTypeHeader : Option String
  contentLengthHeader : Option Nat
  body : BodyModel
deriving DecidableEq, Repr

/-- Static description of an operation derived from its type hints. -/
structure OpSpec where
  /-- The hint entries other than `return`, in declaration order. -/
  params : List ParamSpec
  /-- `is_subclass(return_hint, Stream)`. -/
  returnStream : Bool

/-- Oracles describing the resource tree and the type-driven helpers. -/
structure World where
  /-- Attribute observation per (resource, segment). -/
  attrs : Nat → String → AttrLookup
  /-- Item observation per (resource, segment). -/
  items : Nat → String → ItemLookup
  /-- Operation lookup per (resource, lowercased method). -/
  ops : Nat → String → OpLookup
  /-- Hints of an operation. -/
  opSpec : Nat → OpSpec
  /-- `validate(result, return_hint)`: `some m` raises with message `m`
  (uncaught, hence propagating). -/
  validateReturn : Nat → Val → Option String
  /-- For stream-typed returns, the returned value used directly as body. -/
  streamOf : Val → BodyModel
  /-- `get_codec(Binary, return_hint).content_type`. -/
  codecContentType : Nat → String
  /-- `return_codec.encode(result)`, as a byte list. -/
  encode : Nat → Val → List Nat

/-- Outcome of `await operation(**params)` (including the authorization and
validation performed inside the `@operation` wrapper). -/
abbrev Invoke := Nat → List (String × Option Val) → Except PyExc Val

/--
`_subordinate(resource, segment)` (http.py lines 328-351).

Attribute branch: a resource attribute is returned; a non-callable or a
callable without a resource `return` hint fails `NotFoundError`; for a
callable with a resource `return` hint the code then evaluates
`is_coroutine_function(attr)` — a name defined nowhere in `fondat/http.py`
and imported by none of its import statements — so this branch raises
`NameError`.

Item branch: only `TypeError` from `resource[segment]` is converted to
`NotFoundError`; any other exception propagates; a non-resource item fails
`NotFoundError`.
-/
def subordinate (w : World) (r : Nat) (segment : String) : Except PyExc Nat :=
  match w.attrs r segment with
  | .resource r2 => .ok r2
  | .notCallable => .error .notFound
  | .callableNonResourceReturn => .error .notFound
  | .callableResourceReturn _ _ => .error (.nameError "is_coroutine_function")
  | .absent =>
    match w.items r segment with
    | .raises (.typeError _) => .error .notFound
    | .raises e => .error e
    | .value false _ => .error .notFound
    | .value true r2 => .ok r2

/-- The traversal loop `for segment in segments: resource = await
_subordinate(resource, segment)` (http.py lines 507-508). -/
def traverse (w : World) : Nat → List String → Except PyExc Nat
  | r, [] => .ok r
  | r, s :: rest =>
    match subordinate w r s with
    | .error e => .error e
    | .ok r2 => traverse w r2 rest

/-- Path-segment computation of `Application._handle` (http.py lines
499-504): strip the mount prefix, then split the remainder on `/` (an empty
remainder gives zero segments). -/
def segmentsOf (appPath reqPath : String) : List String :=
  let tail := strDrop reqPath appPath.length
  if tail = "" then [] else splitSlash tail

/--
Response finalization of `Application._handle` (http.py lines 502 and
544-554): fresh response with default status 200; `Content-Type` set from
the body; when the body length is known it either forces status 204 (length
zero; no `Content-Length` header is set) or sets the `Content-Length`
header.
-/
def finalize (body : BodyModel) : ResponseModel :=
  { status := if body.contentLength = some 0 then 204 else 200
    contentTypeHeader := some body.contentType
    contentLengthHeader :=
      match body.contentLength with
      | none => none
      | some n => if n = 0 then none else some n
    body := body }

/-- Configuration of `Application`: normalized mount path
(`path.rstrip("/") + "/"`) and root resource. -/
structure AppCfg where
  path : String
  root : Nat

/--
`Application._handle(request)` (http.py lines 498-554), with the operation
invocation `invoke` passed separately so that theorems can quantify over it.

The pipeline: mount-prefix check (`NotFoundError` on mismatch), path
splitting, segment-by-segment traversal via `_subordinate`, operation lookup
by lowercased method (`MethodNotAllowedError` when the attribute is absent
or not an operation), parameter binding, invocation, return validation, and
body encoding (returns typed as streams pass through; other results are
encoded by the return codec into a byte body of known length).
-/
def dispatch (w : World) (invoke : Invoke) (app : AppCfg) (env : ParamEnv)
    (method path : String) : Except PyExc ResponseModel :=
  if !(startsWith path app.path) then .error .notFound
  else
    match traverse w app.root (segmentsOf app.path path) with
    | .error e => .error e
    | .ok res =>
      match w.ops res (pyLower method) with
      | .absent => .error .methodNotAllowed
      | .nonOperation => .error .methodNotAllowed
      | .operation opId =>
        match bindParams env (w.opSpec opId).params with
        | .error e => .error e
        | .ok params =>
          match invoke opId params with
          | .error e => .error e
          | .ok result =>
            match w.validateReturn opId result with
            | some m => .error (.valueError m)
            | none =>
              let body :=
                if (w.opSpec opId).returnStream then w.streamOf result
                else
                  { contentType := w.codecContentType opId
                    contentLength := some (w.encode opId result).length }
              .ok (finalize body)

/--
`Application.handle(request)` (http.py lines 484-496), as a function of the
outcome of `chain.handle(request)` and of the configured error handler
(abstract in the response type `ρ`).  The second component of a successful
result is the list of messages logged at error severity.

Taxonomy errors are re-raised by the inner `except fondat.error.Error:
raise`; any other exception is wrapped by `raise InternalServerError from
ex`.  The outer handler, before translating, logs
`err.__cause__.args[0]` for `InternalServerError`: with a cause whose
`args` is empty this indexing itself raises `IndexError`, and with no cause
at all (`__cause__ is None`) it raises `AttributeError`; either exception
escapes `handle`.
-/
def appHandle {ρ : Type} (errorHandler : PyExc → ρ)
    (chainResult : Except PyExc ρ) : Except PyExc (ρ × List String) :=
  let wrapped : Except PyExc ρ :=
    match chainResult with
    | .ok r => .ok r
    | .error e =>
        if e.isFondatError then .error e
        else .error (.internalServerErrorFrom e)
  match wrapped with
  | .ok r => .ok (r, [])
  | .error err =>
    match err with
    | .internalServerErrorFrom c =>
      match c.args with
      | [] => .error (.indexError "tuple index out of range")
      | m :: _ => .ok (errorHandler (.internalServerErrorFrom c), [m])
    | .internalServerError => .error (.attributeError "args")
    | e => .ok (errorHandler e, [])

/-- Decidable equality of `Except` results, for evaluating concrete runs. -/
instance instDecEqExcept {ε α : Type} [DecidableEq ε] [DecidableEq α] :
    DecidableEq (Except ε α) := fun x y =>
  match x, y with
  | .ok a, .ok b =>
      if h : a = b then .isTrue (by rw [h]) else .isFalse (by simp [h])
  | .error a, .error b =>
      if h : a = b then .isTrue (by rw [h]) else .isFalse (by simp [h])
  | .ok _, .error _ => .isFalse (by simp)
  | .error _, .ok _ => .isFalse (by simp)

/-!
### Concrete worlds used as witnesses and counterexamples
-/

/-- Environment in which every parameter source resolves to no value and
validation always passes. -/
def envAbsent : ParamEnv :=
  { fetch := fun _ => .absent
    validate := fun _ _ => none }

/-- An invocation oracle that always succeeds with value 0. -/
def invokeOk : Invoke := fun _ _ => .ok 0

/-- Application mounted at the root path. -/
def app0 : AppCfg := { path := "/", root := 0 }

/-- A tree whose root has a callable attribute (coroutine status `b`) whose
declared return type is a resource: the situation of http.py line 339. -/
def wCallableAttr (b : Bool) : World :=
  { attrs := fun _ _ => .callableResourceReturn b 1
    items := fun _ _ => .value true 1
    ops := fun _ _ => .absent
    opSpec := fun _ => { params := [], returnStream := false }
    validateReturn := fun _ _ => none
    streamOf := fun _ => { contentType := "", contentLength := none }
    codecContentType := fun _ => ""
    encode := fun _ _ => [] }

/-- A tree whose root has no matching attribute and whose item lookup raises
`KeyError` (a keyed container without that key), and no operations. -/
def wKeyErr : World :=
  { attrs := fun _ _ => .absent
    items := fun _ _ => .raises (.keyError "9")
    ops := fun _ _ => .absent
    opSpec := fun _ => { params := [], returnStream := false }
    validateReturn := fun _ _ => none
    streamOf := fun _ => { contentType := "", contentLength := none }
    codecContentType := fun _ => ""
    encode := fun _ _ => [] }

/-- A tree whose root has no matching attribute and whose item lookup raises
`TypeError` (unsubscriptable resource or key of the wrong type). -/
def wTypeErr : World :=
  { attrs := fun _ _ => .absent
    items := fun _ _ => .raises (.typeError "not subscriptable")
    ops := fun _ _ => .absent
    opSpec := fun _ => { params := [], returnStream := false }
    validateReturn := fun _ _ => none
    streamOf := fun _ => { contentType := "", contentLength := none }
    codecContentType := fun _ => ""
    encode := fun _ _ => [] }

/-- A root resource whose only operation takes one required query parameter
named `id` (unannotated, hence sourced from the query string by default). -/
def wQueryParam : World :=
  { attrs := fun _ _ => .absent
    items := fun _ _ => .raises (.typeError "not subscriptable")
    ops := fun _ _ => .operation 0
    opSpec := fun _ =>
      { params := [{ name := "id", ann := none, hasDefault := false
                     optional := false }]
        returnStream := false }
    validateReturn := fun _ _ => none
    streamOf := fun _ => { contentType := "", contentLength := none }
    codecContentType := fun _ => "application/json"
    encode := fun _ _ => [] }

/-- A root resource whose only operation takes one required body parameter
named `data`. -/
def wBodyParam : World :=
  { attrs := fun _ _ => .absent
    items := fun _ _ => .raises (.typeError "not subscriptable")
    ops := fun _ _ => .operation 0
    opSpec := fun _ =>
      { params := [{ name := "data", ann := some .body, hasDefault := false
                     optional := false }]
        returnStream := false }
    validateReturn := fun _ _ => none
    streamOf := fun _ => { contentType := "", contentLength := none }
    codecContentType := fun _ => "application/json"
    encode := fun _ _ => [] }

/-- A root resource with a parameterless operation whose encoded result is
the empty byte string. -/
def wEmptyBody : World :=
  { attrs := fun _ _ => .absent
    items := fun _ _ => .raises (.typeError "not subscriptable")
    ops := fun _ _ => .operation 0
    opSpec := fun _ => { params := [], returnStream := false }
    validateReturn := fun _ _ => none
    streamOf := fun _ => { contentType := "", contentLength := none }
    codecContentType := fun _ => "application/json"
    encode := fun _ _ => [] }

/-!
### C1 — authorization precedence
-/

/--
C1: the claim states that when all requirements fail and at least one
failure is `ForbiddenError`, `authorize` re-raises the first
`ForbiddenError` (in either order of occurrence).  The code instead raises
`NameError` the moment any `ForbiddenError` is caught, because its handler
evaluates the undefined name `ForbiddenException` (resource.py line 73):
this theorem evaluates `authorize` at the claim's two-requirement scenarios
(forbidden-then-unauthorized and unauthorized-then-forbidden) and at a
single forbidden failure, showing the `NameError` outcome, contradicting
both the claim and the function's own docstring.
-/
theorem authorize_forbidden_raises_undefined_name :
    authorize (some [.raises (.forbidden 1), .raises (.unauthorized 2)])
        = .error (.nameError "ForbiddenException")
    ∧ authorize (some [.raises (.unauthorized 2), .raises (.forbidden 1)])
        = .error (.nameError "ForbiddenException")
    ∧ authorize (some [.raises (.forbidden 1)])
        ≠ .error (.forbidden 1) := by
  refine ⟨rfl, rfl, ?_⟩
  decide

/-!
### C2 — descending through a resource-returning callable attribute
-/

/--
C2: the claim states that a callable, non-resource attribute whose declared
return type is a resource is invoked (awaited when asynchronous) and
traversal descends into its result.  The code instead raises `NameError` on
reaching that branch, because `is_coroutine_function` (http.py line 339) is
not defined or imported in `fondat/http.py`: this theorem evaluates
`_subordinate` at a resource whose attribute is exactly such a callable
(both the asynchronous and the synchronous case) and shows the `NameError`
outcome instead of descent into resource 1.
-/
theorem subordinate_callable_attr_raises_undefined_name :
    subordinate (wCallableAttr true) 0 "sub"
        = .error (.nameError "is_coroutine_function")
    ∧ subordinate (wCallableAttr false) 0 "sub"
        = .error (.nameError "is_coroutine_function")
    ∧ subordinate (wCallableAttr true) 0 "sub" ≠ .ok 1 := by
  refine ⟨rfl, rfl, ?_⟩
  decide

/-!
### Chain lemmas and C6, C7
-/

/-- Walking a list of two-phase filters that all continue appends them, in
entry order, to the rewind accumulator and short-circuits nothing. -/
theorem chainPre_map_cont {ρ : Type} (fs : List (ρ → Option ρ))
    (acc : List (ρ → Option ρ)) :
    chainPre (fs.map fun f => FilterInst.agen (.yld none f)) acc
        = (none, acc ++ fs) := by
  induction fs generalizing acc with
  | nil => simp [chainPre]
  | cons f rest ih =>
      simp only [List.map_cons, chainPre, ih]
      simp

/-- If the walk of `xs` short-circuits nothing, walking `xs ++ ys` continues
into `ys` with the rewind list accumulated by `xs`. -/
theorem chainPre_append_of_none {ρ : Type} (xs ys : List (FilterInst ρ))
    (acc rwl : List (ρ → Option ρ))
    (h : chainPre xs acc = (none, rwl)) :
    chainPre (xs ++ ys) acc = chainPre ys rwl := by
  induction xs generalizing acc with
  | nil =>
      simp [chainPre] at h
      rw [List.nil_append, h]
  | cons x rest ih =>
      cases x with
      | coro r =>
          cases r with
          | none => exact ih acc (by simpa [chainPre] using h)
          | some r => simp [chainPre] at h
      | agen pre =>
          cases pre with
          | stop => exact ih acc (by simpa [chainPre] using h)
          | yld r resume =>
              cases r with
              | none =>
                  exact ih (acc ++ [resume]) (by simpa [chainPre] using h)
              | some r => simp [chainPre] at h

/--
C6: for every chain of two-phase filters that all continue past the
pre-phase, `Chain.handle` resumes them in strictly reverse order of entry,
feeding each the current response; a replacement response becomes the
current response for the next (further upstream) filter and, when no later
replacement occurs, the final result.  The right-hand fold over the
reversed entry order, with step `(f resp).getD resp`, is exactly that
process.
-/
theorem chain_resumes_in_reverse_order {σ ρ : Type}
    (fs : List (ρ → Option ρ)) (handler : σ → ρ) (request : σ) :
    Chain.handle (fs.map fun f => fun _ => FilterInst.agen (.yld none f))
        handler request
      = fs.reverse.foldl step (handler request) := by
  unfold Chain.handle
  rw [List.map_map]
  rw [show ((fun f => f request) ∘
        fun f (_ : σ) => FilterInst.agen (AgenPre.yld none f))
      = (fun f => FilterInst.agen (AgenPre.yld (ρ := ρ) none f)) from rfl]
  rw [chainPre_map_cont fs []]
  simp

/--
C7: a two-phase filter that short-circuits during the pre-phase is never
resumed: the chain's result is the resumption of exactly the rewind list
accumulated by the filters entered before it, applied to the
short-circuit response — uniformly in the short-circuiting filter's own
resume behaviour and in everything placed after it (neither is entered).
-/
theorem chain_short_circuit_never_resumed {σ ρ : Type}
    (pre post : List (σ → FilterInst ρ)) (r : ρ) (resume : ρ → Option ρ)
    (handler : σ → ρ) (request : σ) (rwl : List (ρ → Option ρ))
    (h : chainPre (pre.map fun f => f request) [] = (none, rwl)) :
    Chain.handle
        (pre ++ (fun _ => FilterInst.agen (.yld (some r) resume)) :: post)
        handler request
      = rwl.reverse.foldl step r := by
  unfold Chain.handle
  rw [List.map_append, chainPre_append_of_none _ _ _ rwl h]
  simp [chainPre]

/-- Two-phase filter logging 1 into a list-valued response, for the C7
scenario. -/
def filterLog1 : List Nat → Option (List Nat) := fun resp => some (resp ++ [1])

/-- Two-phase filter logging 3 into a list-valued response, for the C7
scenario. -/
def filterLog3 : List Nat → Option (List Nat) := fun resp => some (resp ++ [3])

/--
Witness for C7: three two-phase filters of which the middle one
short-circuits with response `[99]`; the final response records a
resumption of the first filter only (log entry 1), the middle and the last
filter are never resumed (no log entries 2 or 3).
-/
theorem chain_short_circuit_never_resumed_witness :
    Chain.handle (ρ := List Nat)
        ([fun _ => FilterInst.agen (.yld none filterLog1)]
          ++ (fun _ => FilterInst.agen
                (.yld (some [99]) (fun resp => some (resp ++ [2]))))
            :: [fun _ => FilterInst.agen (.yld none filterLog3)])
        (fun _ => [0]) ()
      = [99, 1] := by
  have h := chain_short_circuit_never_resumed
    [fun _ => FilterInst.agen (.yld none filterLog1)]
    [fun _ => FilterInst.agen (.yld none filterLog3)]
    [99] (fun resp => some (resp ++ [2])) (fun _ => [0]) () [filterLog1] rfl
  simpa [step, filterLog1] using h

/-!
### C3 — indexed/keyed lookup failures
-/

/--
C3 counterexample: the claim states that an out-of-range key during
indexed/keyed lookup makes dispatch fail with NotFound, never any other
error kind.  At a keyed container whose lookup of the absent key `9` raises
`KeyError` (the standard Python signal for a missing mapping key), the
`except TypeError` clause of `_subordinate` (http.py lines 345-348) does not
apply: dispatch fails with the propagating `KeyError`, which is not
NotFound, and `Application.handle` then surfaces it as an
InternalServerError response (translated by the error handler, with the key
logged at error severity) — a 500-class outcome, not a 404.
-/
theorem dispatch_out_of_range_key_not_notFound_cex :
    dispatch wKeyErr invokeOk app0 envAbsent "GET" "/9"
        = .error (.keyError "9")
    ∧ PyExc.keyError "9" ≠ PyExc.notFound
    ∧ appHandle (fun _ => (0 : Nat)) (.error (.keyError "9"))
        = .ok (0, ["9"]) := by
  refine ⟨rfl, ?_, rfl⟩
  decide

/--
C3 (amended): during path resolution by indexed/keyed lookup, a key access
that raises `TypeError` (a type-mismatched key or an unsubscriptable
resource) or a lookup producing a non-resource value fails with NotFound —
never BadRequest; but a key access raising any other exception (such as
`KeyError` or `IndexError` for an out-of-range key) propagates unchanged
instead of becoming NotFound.
-/
theorem subordinate_typeError_or_non_resource_notFound
    (w : World) (r : Nat) (s : String)
    (hattr : w.attrs r s = .absent)
    (hitem : (∃ m, w.items r s = .raises (.typeError m))
        ∨ (∃ r2, w.items r s = .value false r2)) :
    subordinate w r s = .error .notFound := by
  unfold subordinate
  rw [hattr]
  rcases hitem with ⟨m, h⟩ | ⟨r2, h⟩ <;> rw [h]

/-- Witness for the amended C3 at a concrete unsubscriptable resource. -/
theorem subordinate_typeError_notFound_witness :
    subordinate wTypeErr 0 "9" = .error .notFound :=
  subordinate_typeError_or_non_resource_notFound wTypeErr 0 "9" rfl
    (.inl ⟨"not subscriptable", rfl⟩)

/-!
### C5 — missing operation is MethodNotAllowed
-/

/--
C5: for every request whose path fully resolves to a resource, when the
resolved resource has no attribute named after the lowercased request
method, or has one that is not an operation, dispatch fails with
MethodNotAllowed (http.py lines 509-511) — never NotFound.
-/
theorem dispatch_missing_operation_methodNotAllowed
    (w : World) (invoke : Invoke) (app : AppCfg) (env : ParamEnv)
    (method path : String) (res : Nat)
    (hpre : startsWith path app.path = true)
    (htrav : traverse w app.root (segmentsOf app.path path) = .ok res)
    (hop : w.ops res (pyLower method) = .absent
        ∨ w.ops res (pyLower method) = .nonOperation) :
    dispatch w invoke app env method path = .error .methodNotAllowed
    ∧ dispatch w invoke app env method path ≠ .error .notFound := by
  have hd : dispatch w invoke app env method path
      = .error .methodNotAllowed := by
    unfold dispatch
    rcases hop with h | h <;> simp [hpre, htrav, h]
  refine ⟨hd, ?_⟩
  rw [hd]
  decide

/-- Witness for C5: a GET on the mount root of a resource without a `get`
operation yields MethodNotAllowed and not NotFound. -/
theorem dispatch_missing_operation_methodNotAllowed_witness :
    dispatch wKeyErr invokeOk app0 envAbsent "GET" "/"
        = .error .methodNotAllowed
    ∧ dispatch wKeyErr invokeOk app0 envAbsent "GET" "/"
        ≠ .error .notFound :=
  dispatch_missing_operation_methodNotAllowed wKeyErr invokeOk app0 envAbsent
    "GET" "/" 0 rfl rfl (.inl rfl)

/-!
### C4 — wrapping of non-taxonomy exceptions
-/

/--
C4 counterexample: the claim states that every non-taxonomy exception is
caught, wrapped, logged and turned into the error handler's response, never
escaping `Application.handle`.  At a non-taxonomy exception constructed
with no arguments (Python `Exception()`), the logging step
`_logger.error(msg=err.__cause__.args[0], ...)` (http.py line 495) indexes
an empty `args` tuple: the resulting `IndexError` escapes `handle` and no
error-handler response is produced.
-/
theorem appHandle_argless_exception_escapes_cex :
    appHandle (fun _ => (0 : Nat)) (.error (.other []))
      = .error (.indexError "tuple index out of range") := rfl

/--
C4 (amended): for every request whose processing raises an exception
outside the declared error taxonomy, provided the exception carries at
least one argument, `Application.handle` catches it exactly once, wraps it
as an InternalServerError preserving the original as its cause, logs the
cause's first argument at error severity, and returns the response produced
by the configured error handler for that InternalServerError; an
argument-less exception instead makes the logging step raise `IndexError`,
which escapes.
-/
theorem appHandle_wraps_logs_translates {ρ : Type}
    (errorHandler : PyExc → ρ) (e : PyExc) (m : String) (rest : List String)
    (hnontax : e.isFondatError = false)
    (hargs : e.args = m :: rest) :
    appHandle errorHandler (.error e)
      = .ok (errorHandler (.internalServerErrorFrom e), [m]) := by
  unfold appHandle
  simp [hnontax, hargs]

/-- Witness for the amended C4 at a concrete one-argument exception. -/
theorem appHandle_wraps_logs_translates_witness :
    appHandle (fun _ => (0 : Nat)) (.error (.other ["boom"]))
      = .ok (0, ["boom"]) :=
  appHandle_wraps_logs_translates (fun _ => (0 : Nat)) (.other ["boom"])
    "boom" [] rfl rfl

/-!
### C9 — zero-length body forces status 204
-/

/-- A body of known zero length sets the no-content status. -/
theorem finalize_zero_length_status (b : BodyModel)
    (h : b.contentLength = some 0) : (finalize b).status = 204 := by
  simp [finalize, h]

/-- Every successful dispatch result is a finalized body. -/
theorem dispatch_ok_finalize (w : World) (invoke : Invoke) (app : AppCfg)
    (env : ParamEnv) (method path : String) (resp : ResponseModel)
    (h : dispatch w invoke app env method path = .ok resp) :
    ∃ b : BodyModel, resp = finalize b := by
  unfold dispatch at h
  split at h
  · exact absurd h (by simp)
  · split at h
    · exact absurd h (by simp)
    · split at h
      · exact absurd h (by simp)
      · exact absurd h (by simp)
      · split at h
        · exact absurd h (by simp)
        · split at h
          · exact absurd h (by simp)
          · split at h
            · exact absurd h (by simp)
            · exact ⟨_, (Except.ok.inj h).symm⟩

/--
C9: for every successful dispatch whose encoded response body has a known
content length of exactly zero, the response status is 204 (no content)
instead of the default 200 — regardless of the operation's declared return
type, since every successful dispatch finalizes its body the same way
(http.py lines 549-553).
-/
theorem dispatch_zero_length_body_status_204 (w : World) (invoke : Invoke)
    (app : AppCfg) (env : ParamEnv) (method path : String)
    (resp : ResponseModel)
    (h : dispatch w invoke app env method path = .ok resp)
    (hlen : resp.body.contentLength = some 0) :
    resp.status = 204 := by
  obtain ⟨b, rfl⟩ := dispatch_ok_finalize w invoke app env method path resp h
  exact finalize_zero_length_status b hlen

/-- Witness for C9: a parameterless operation whose encoded result is the
empty byte string dispatches to a 204 response. -/
theorem dispatch_zero_length_body_status_204_witness :
    (⟨204, some "application/json", none,
        ⟨"application/json", some 0⟩⟩ : ResponseModel).status = 204 :=
  dispatch_zero_length_body_status_204 wEmptyBody invokeOk app0 envAbsent
    "GET" "/" ⟨204, some "application/json", none,
      ⟨"application/json", some 0⟩⟩ rfl rfl

/-!
### C8, C10 — required and defaulted parameters
-/

/-- When all parameters before `p` bind successfully and `p` resolves to no
value while lacking a default and optionality, the parameter loop raises
`BadRequestError` naming `p`'s source. -/
theorem bindParams_error_of_missing_required (env : ParamEnv)
    (pre post : List ParamSpec) (p : ParamSpec)
    (bs : List (String × Option Val))
    (hbefore : bindParams env pre = .ok bs)
    (habsent : env.fetch (sourceOf p) = .absent)
    (hdef : p.hasDefault = false) (hopt : p.optional = false) :
    bindParams env (pre ++ p :: post)
      = .error (.badRequest ("expecting value in " ++ sourceStr (sourceOf p)))
    := by
  induction pre generalizing bs with
  | nil => simp [bindParams, habsent, hdef, hopt]
  | cons q rest ih =>
      rw [List.cons_append]
      cases hf : env.fetch (sourceOf q) with
      | badRequest m => simp [bindParams, hf] at hbefore
      | absent =>
          cases hflag : (!q.hasDefault && !q.optional) with
          | true => simp [bindParams, hf, hflag] at hbefore
          | false =>
              cases hrest : bindParams env rest with
              | error e => simp [bindParams, hf, hflag, hrest] at hbefore
              | ok tail => simp [bindParams, hf, hflag, ih tail hrest]
      | value v =>
          cases hval : env.validate q.name v with
          | some m => simp [bindParams, hf, hval] at hbefore
          | none =>
              cases hrest : bindParams env rest with
              | error e => simp [bindParams, hf, hval, hrest] at hbefore
              | ok tail => simp [bindParams, hf, hval, ih tail hrest]

/-- C10 core: a successful parameter binding maps every parameter whose
resolved source value is absent — among them every defaulted one — to the
explicit `None` sentinel. -/
theorem bindParams_absent_binds_none (env : ParamEnv)
    (specs : List ParamSpec) (params : List (String × Option Val))
    (p : ParamSpec)
    (hmem : p ∈ specs)
    (hnodup : (specs.map ParamSpec.name).Nodup)
    (habsent : env.fetch (sourceOf p) = .absent)
    (hok : bindParams env specs = .ok params) :
    params.lookup p.name = some none := by
  induction specs generalizing params with
  | nil => exact absurd hmem (by simp)
  | cons q rest ih =>
      rw [List.map_cons, List.nodup_cons] at hnodup
      rcases List.mem_cons.mp hmem with rfl | hmem2
      · cases hflag : (!p.hasDefault && !p.optional) with
        | true => simp [bindParams, habsent, hflag] at hok
        | false =>
            cases hrest : bindParams env rest with
            | error e => simp [bindParams, habsent, hflag, hrest] at hok
            | ok tail =>
                simp [bindParams, habsent, hflag, hrest] at hok
                subst hok
                simp [List.lookup]
      · have hne : (p.name == q.name) = false := by
          have hpin : p.name ∈ rest.map ParamSpec.name :=
            List.mem_map_of_mem ParamSpec.name hmem2
          have : p.name ≠ q.name := fun hcontra => by
            rw [hcontra] at hpin
            exact hnodup.1 hpin
          simpa using this
        cases hf : env.fetch (sourceOf q) with
        | badRequest m => simp [bindParams, hf] at hok
        | absent =>
            cases hflag : (!q.hasDefault && !q.optional) with
            | true => simp [bindParams, hf, hflag] at hok
            | false =>
                cases hrest : bindParams env rest with
                | error e => simp [bindParams, hf, hflag, hrest] at hok
                | ok tail =>
                    simp [bindParams, hf, hflag, hrest] at hok
                    subst hok
                    rw [List.lookup, hne]
                    exact ih tail hmem2 hnodup.2 hrest
        | value v =>
            cases hval : env.validate q.name v with
            | some m => simp [bindParams, hf, hval] at hok
            | none =>
                cases hrest : bindParams env rest with
                | error e => simp [bindParams, hf, hval, hrest] at hok
                | ok tail =>
                    simp [bindParams, hf, hval, hrest] at hok
                    subst hok
                    rw [List.lookup, hne]
                    exact ih tail hmem2 hnodup.2 hrest

/--
C8 counterexample: the claim states that a missing required parameter makes
dispatch fail with a BadRequest whose message names that parameter and its
source.  For a required body-sourced parameter named `data` with no body
supplied, dispatch fails with BadRequest whose message is exactly
`expecting value in request body` (http.py line 534 with `_InBody.__str__`,
lines 423-424): it names the source but contains no occurrence of the
parameter name `data`.
-/
theorem dispatch_missing_body_param_message_cex :
    dispatch wBodyParam invokeOk app0 envAbsent "POST" "/"
        = .error (.badRequest "expecting value in request body")
    ∧ strContains "data".data "expecting value in request body".data
        = false := by
  refine ⟨rfl, ?_⟩
  decide

/--
C8 (amended): for every operation parameter whose resolved source value is
absent and which has no declared default and is not declared optional (all
parameters before it binding successfully), dispatch fails with a
BadRequest error whose message names the parameter's source — the source
key for query/header/cookie-sourced parameters, which for an unannotated
parameter is the parameter's own name, while a body-sourced parameter is
named only as `request body` — and the operation body is not invoked (the
result is the same for every invocation behaviour).
-/
theorem dispatch_missing_required_param_badRequest
    (w : World) (app : AppCfg) (env : ParamEnv) (method path : String)
    (res opId : Nat) (pre post : List ParamSpec) (p : ParamSpec)
    (bs : List (String × Option Val))
    (hpre : startsWith path app.path = true)
    (htrav : traverse w app.root (segmentsOf app.path path) = .ok res)
    (hop : w.ops res (pyLower method) = .operation opId)
    (hparams : (w.opSpec opId).params = pre ++ p :: post)
    (hbefore : bindParams env pre = .ok bs)
    (habsent : env.fetch (sourceOf p) = .absent)
    (hdef : p.hasDefault = false) (hopt : p.optional = false) :
    ∀ invoke : Invoke,
      dispatch w invoke app env method path
        = .error
            (.badRequest ("expecting value in " ++ sourceStr (sourceOf p)))
    := by
  intro invoke
  unfold dispatch
  simp [hpre, htrav, hop, hparams,
    bindParams_error_of_missing_required env pre post p bs hbefore habsent
      hdef hopt]

/-- Witness for the amended C8: a required unannotated parameter `id` with
no query value yields BadRequest naming `query parameter: id`. -/
theorem dispatch_missing_required_param_badRequest_witness :
    dispatch wQueryParam invokeOk app0 envAbsent "GET" "/"
      = .error (.badRequest "expecting value in query parameter: id") := by
  have h := dispatch_missing_required_param_badRequest wQueryParam app0
    envAbsent "GET" "/" 0 0 [] [] ⟨"id", none, false, false⟩ []
    rfl rfl rfl rfl rfl rfl rfl rfl invokeOk
  exact h

/--
C10: for every operation parameter that declares a default value, when its
resolved source value is absent the parameter loop binds the parameter
explicitly to the `None` sentinel (`params[name] = None`, http.py line 535),
so the keyword call `operation(**params)` never falls back to the declared
default, whatever that default is.
-/
theorem dispatch_declared_default_never_used (env : ParamEnv)
    (specs : List ParamSpec) (params : List (String × Option Val))
    (p : ParamSpec) (defaults : String → Option Val)
    (hmem : p ∈ specs)
    (hnodup : (specs.map ParamSpec.name).Nodup)
    (habsent : env.fetch (sourceOf p) = .absent)
    (_hdefault : p.hasDefault = true)
    (hok : bindParams env specs = .ok params) :
    params.lookup p.name = some none
    ∧ effectiveArg params defaults p.name = none := by
  have hl := bindParams_absent_binds_none env specs params p hmem hnodup
    habsent hok
  exact ⟨hl, by simp [effectiveArg, hl]⟩

/-- Witness for C10: a defaulted parameter `x` with no query value is bound
to `None`, and the call ignores a declared default of `7`. -/
theorem dispatch_declared_default_never_used_witness :
    List.lookup "x" [("x", (none : Option Val))] = some none
    ∧ effectiveArg [("x", (none : Option Val))] (fun _ => some 7) "x"
        = none :=
  dispatch_declared_default_never_used envAbsent
    [⟨"x", none, true, false⟩] [("x", none)] ⟨"x", none, true, false⟩
    (fun _ => some 7) (by decide) (by decide) rfl rfl rfl

end Fondat
